import Mathlib

/-!
Verification of `pf-process-statements.py` (CAMT.053 file processor for an
Odoo instance). The Python source is shallowly embedded: each function of the
script becomes a Lean definition over explicit data; effects (file system
listing, XML-RPC calls, log output) become explicit values (an `Except`-typed
listing argument, a trace of remote calls, a list of log events). Remote
responses (authentication results, call faults, record ids) are supplied by an
explicit environment, since the remote accounting system is an external
collaborator of the script.
-/

namespace PfStatements

/-! ## Base64 (Python `base64.b64encode`, used at line 180 of the script) -/

/-- The standard base64 alphabet. -/
def b64alphabet : List Char :=
  "ABCDEFGHIJKLMNOPQRSTUVWXYZabcdefghijklmnopqrstuvwxyz0123456789+/".toList

/-- Character of the base64 alphabet at a 6-bit index. -/
def b64char (n : Nat) : Char := b64alphabet.getD n 'A'

/-- Standard base64 encoding of a byte list, three bytes at a time with
`=` padding, as performed by the Python standard library. -/
def b64encodeChunks : List Nat → List Char
  | [] => []
  | [b1] =>
      [b64char (b1 / 4), b64char (b1 % 4 * 16), '=', '=']
  | [b1, b2] =>
      [b64char (b1 / 4), b64char (b1 % 4 * 16 + b2 / 16),
       b64char (b2 % 16 * 4), '=']
  | b1 :: b2 :: b3 :: rest =>
      b64char (b1 / 4) :: b64char (b1 % 4 * 16 + b2 / 16) ::
      b64char (b2 % 16 * 4 + b3 / 64) :: b64char (b3 % 64) ::
      b64encodeChunks rest

/-- Base64-encode a byte list into a string (`base64.b64encode(...).decode("utf-8")`). -/
def b64encode (bs : List Nat) : String := String.mk (b64encodeChunks bs)

/-! ## CAMT.053 document model

The script reads two pieces of data out of a parsed CAMT.053 XML tree, both
under the fixed namespace `urn:iso:std:iso:20022:tech:xsd:camt.053.001.04`:
the transaction-entry (`Ntry`) nodes found by `root.findall(".//ns:Ntry", ns)`
at line 95, and the statement-identifier node found by
`root.find(".//ns:Stmt/ns:Id", ...)` at line 147. The embedding keeps exactly
those observations. -/

/-- Parsed view of a well-formed CAMT.053 document: `ntryCount` is the number
of `Ntry` nodes under the fixed namespace, and `stmtIdNode` records the
`Stmt/Id` node: `none` when the node is absent, `some none` when the node is
present but has no text (ElementTree reports its text as Python `None`), and
`some (some t)` when the node has text `t`. -/
structure Camt053Doc where
  ntryCount : Nat
  stmtIdNode : Option (Option String)
deriving Repr, DecidableEq

/-- Content of an XML file on disk: either not well-formed XML (parsing raises
`ET.ParseError`) or a well-formed CAMT.053 document. -/
inductive XmlContent
  | malformed
  | wellFormed (doc : Camt053Doc)
deriving Repr, DecidableEq

/-- One file of the processed directory: its name, its parse outcome, and its
raw bytes (which the script base64-encodes for upload at lines 178-180). -/
structure FsFile where
  name : String
  xml : XmlContent
  bytes : List Nat
deriving Repr, DecidableEq

/-! ## Log events

Only the log lines the script emits along the processing paths are modelled,
one constructor per `logging.<level>` call site that marks a file-level
outcome. The first `String` argument is always the file name. -/

/-- Log events emitted by the script, tagged with the file name. -/
inductive LogEvent
  | errorParsingXml (file : String)
  | blankFileReported (file : String)
  | skippedNonXml (file : String)
  | skippedBlank (file : String)
  | errorExtractId (file : String)
  | skippedExisting (file : String) (stmtId : String)
  | errorCheckingExistence (file : String) (stmtId : String)
  | uploadedOk (file : String)
  | errorUploading (file : String)
deriving Repr, DecidableEq

/-- File name a log event is about. -/
def LogEvent.fileName : LogEvent → String
  | .errorParsingXml f => f
  | .blankFileReported f => f
  | .skippedNonXml f => f
  | .skippedBlank f => f
  | .errorExtractId f => f
  | .skippedExisting f _ => f
  | .errorCheckingExistence f _ => f
  | .uploadedOk f => f
  | .errorUploading f => f

/-! ## XML inspector -/

/-- Lines 88-103 (`is_blank_camt053`): parse the file; return `True` when the
document has no `Ntry` entries, `False` otherwise; when parsing raises
`ET.ParseError`, log the error and return `False`. The result is the returned
boolean paired with the log events emitted by the call. -/
def is_blank_camt053 (file : FsFile) : Bool × List LogEvent :=
  match file.xml with
  | .malformed => (false, [.errorParsingXml file.name])
  | .wellFormed doc => (doc.ntryCount == 0, [])

/-- Python `str.lower()` (the filenames involved are ASCII). -/
def pyLower (s : String) : String := String.mk (s.data.map Char.toLower)

/-- Python `s.startswith(p)`. -/
def pyStartsWith (s p : String) : Bool := s.data.take p.data.length == p.data

/-- Python `s.endswith(p)`: case-sensitive comparison of the last
`len(p)` characters. -/
def pyEndsWith (s p : String) : Bool :=
  s.data.reverse.take p.data.length == p.data.reverse

/-- Python whitespace characters stripped by `str.strip()`:
space, tab, newline, carriage return, vertical tab, form feed. -/
def isPyWhitespace (c : Char) : Bool :=
  c = ' ' || c = '\t' || c = '\n' || c = '\r' ||
  c = Char.ofNat 11 || c = Char.ofNat 12

/-- Python `str.strip()`: remove leading and trailing whitespace. -/
def pyStrip (s : String) : String :=
  String.mk (((s.data.dropWhile isPyWhitespace).reverse.dropWhile
    isPyWhitespace).reverse)

/-- Lines 142-154 of `process_directory`: re-parse the file and read the
`Stmt/Id` node. The Python code skips the file (`continue`, here `none`) when
parsing raises (malformed file, caught by `except Exception`), when
`stmt_id_node is None`, or when `not stmt_id_node.text` (text is `None` or the
empty string); otherwise the statement id is `stmt_id_node.text.strip()`.
Note the truthiness test happens before stripping, so whitespace-only text
passes the test and strips to the empty string. -/
def extract_stmt_id (file : FsFile) : Option String :=
  match file.xml with
  | .malformed => none
  | .wellFormed doc =>
    match doc.stmtIdNode with
    | none => none
    | some txt =>
      match txt with
      | none => none
      | some t => if t = "" then none else some (pyStrip t)

/-! ## Blank-detection workflow -/

/-- Line 111 filename filter of `process_directory_for_blanks`: the lowercased
name must start with `"camt.053"` and the name itself must end with `".xml"`.
Note `endswith` is applied to the original name, so the suffix test is
case-sensitive. -/
def blankFilter (name : String) : Bool :=
  pyStartsWith (pyLower name) "camt.053" && pyEndsWith name ".xml"

/-- Loop body of lines 108-117: the first component lists the files reported
blank (printed and info-logged), the second the files actually inspected by
`is_blank_camt053` (those passing the filename filter), the third the log
events. -/
def blanksLoop : List FsFile → List String × List String × List LogEvent
  | [] => ([], [], [])
  | f :: fs =>
    let rest := blanksLoop fs
    if blankFilter f.name then
      let br := is_blank_camt053 f
      if br.1 then
        (f.name :: rest.1, f.name :: rest.2.1,
         br.2 ++ [.blankFileReported f.name] ++ rest.2.2)
      else
        (rest.1, f.name :: rest.2.1, br.2 ++ rest.2.2)
    else
      (rest.1, rest.2.1, .skippedNonXml f.name :: rest.2.2)

/-- Lines 105-117 (`process_directory_for_blanks`): the `os.listdir` call at
line 108 is outside any `try`, so a listing failure (modelled as
`Except.error`) propagates and the workflow produces nothing. -/
def process_directory_for_blanks (listing : Except Unit (List FsFile)) :
    Except Unit (List String × List String × List LogEvent) :=
  listing.map blanksLoop

/-! ## Remote ledger model

The remote Odoo instance is an external collaborator of the script, reached
with XML-RPC. Its observable behaviour at the call boundary is modelled
explicitly: `RemoteState` is the remote record store, `RemoteEnv` supplies the
responses (authentication outcome and per-file fault injection), and every
call the script issues is recorded in a `RemoteCall` trace. The effect of a
successful `import_file_button` call — the remote system parses the staged
file and a bank statement bearing the file statement identifier becomes
searchable — is the environment behaviour the deduplication policy of the
script relies on (spec: the existence check of a second run must find the
upload of the first run). -/

/-- Observable state of the remote system: names of existing bank statements
(`account.bank.statement`, searched by `name` at lines 161-168) and the
created import-staging records (`account.statement.import`) as
(record id, filename, encoded content), plus the next fresh record id. -/
structure RemoteState where
  statements : List String
  imports : List (Nat × String × String)
  nextId : Nat
deriving Repr, DecidableEq

/-- Responses of the remote environment: the outcome of the `authenticate`
call at line 124 (`Except.error` models a communication fault, `ok n` a
returned value, with `0` standing for the falsy `False`), and which remote
calls fault, keyed by the name of the file being processed. -/
structure RemoteEnv where
  authResult : Except Unit Nat
  searchFault : String → Bool
  createFault : String → Bool
  triggerFault : String → Bool

/-- Remote environment in which every call succeeds. -/
def RemoteEnv.faultFree (env : RemoteEnv) : Prop :=
  (∀ n, env.searchFault n = false) ∧ (∀ n, env.createFault n = false) ∧
  (∀ n, env.triggerFault n = false)

/-- Remote calls issued through `models.execute_kw`, with the user id used. -/
inductive RemoteCall
  | searchStatement (uid : Nat) (stmtId : String)
  | createImport (uid : Nat) (filename : String) (content : String)
  | importFileButton (uid : Nat) (args : List Nat)
deriving Repr, DecidableEq

/-- User id a remote call was issued with. -/
def RemoteCall.uid : RemoteCall → Nat
  | .searchStatement u _ => u
  | .createImport u _ _ => u
  | .importFileButton u _ => u

/-- Whether a remote call is a `create` on the import-staging model. -/
def RemoteCall.isCreate : RemoteCall → Bool
  | .createImport _ _ _ => true
  | _ => false

/-- Whether a remote call is an `import_file_button` trigger. -/
def RemoteCall.isTrigger : RemoteCall → Bool
  | .importFileButton _ _ => true
  | _ => false

/-! ## Import workflow -/

/-- Lines 159-199 of `process_directory`: the existence check and the upload
for one file whose statement id has been extracted. Search the remote
bank-statement records for an exact name match, skipping the file both on a
match (info log) and on a fault of the search call itself (error log, the
`except` at lines 172-174); otherwise create an `account.statement.import`
record with the filename and the base64-encoded bytes, then call
`import_file_button` with the returned record id wrapped in a one-element
list; a fault in either upload call is caught at lines 198-199 and only
error-logged. A successful trigger makes a bank statement with this
statement id searchable remotely (environment behaviour, see the section
comment). -/
def checkAndUpload (uid : Nat) (env : RemoteEnv) (remote : RemoteState)
    (file : FsFile) (stmtId : String) :
    List RemoteCall × List LogEvent × RemoteState :=
  if env.searchFault file.name then
    ([.searchStatement uid stmtId],
     [.errorCheckingExistence file.name stmtId], remote)
  else if remote.statements.contains stmtId then
    ([.searchStatement uid stmtId],
     [.skippedExisting file.name stmtId], remote)
  else
    let encoded := b64encode file.bytes
    if env.createFault file.name then
      ([.searchStatement uid stmtId, .createImport uid file.name encoded],
       [.errorUploading file.name], remote)
    else
      let recId := remote.nextId
      let remote1 : RemoteState :=
        { remote with
          imports := remote.imports ++ [(recId, file.name, encoded)],
          nextId := remote.nextId + 1 }
      if env.triggerFault file.name then
        ([.searchStatement uid stmtId,
          .createImport uid file.name encoded,
          .importFileButton uid [recId]],
         [.errorUploading file.name], remote1)
      else
        ([.searchStatement uid stmtId,
          .createImport uid file.name encoded,
          .importFileButton uid [recId]],
         [.uploadedOk file.name],
         { remote1 with statements := remote1.statements ++ [stmtId] })

/-- Body of the `for file_name in os.listdir(directory)` loop of
`process_directory` (lines 127-199), for one file. Returns the remote calls
issued for this file, the log events, and the remote state afterwards.

Faithful control flow: skip names not ending in `".xml"` (line 129); skip
blank files (lines 137-139, the parse-error log of `is_blank_camt053`
included); extract the statement id, `continue` with an error log when absent
(lines 142-154); then run the existence check and upload of
`checkAndUpload` (lines 159-199). -/
def processFile (uid : Nat) (env : RemoteEnv) (remote : RemoteState)
    (file : FsFile) : List RemoteCall × List LogEvent × RemoteState :=
  if !pyEndsWith file.name ".xml" then
    ([], [.skippedNonXml file.name], remote)
  else
    let br := is_blank_camt053 file
    if br.1 then
      ([], br.2 ++ [.skippedBlank file.name], remote)
    else
      match extract_stmt_id file with
      | none => ([], br.2 ++ [.errorExtractId file.name], remote)
      | some stmtId =>
        let res := checkAndUpload uid env remote file stmtId
        (res.1, br.2 ++ res.2.1, res.2.2)

/-- The whole file loop of `process_directory`, left to right, threading the
remote state and concatenating call traces and logs. -/
def processFiles (uid : Nat) (env : RemoteEnv) :
    RemoteState → List FsFile → List RemoteCall × List LogEvent × RemoteState
  | remote, [] => ([], [], remote)
  | remote, f :: fs =>
    let step := processFile uid env remote f
    let rest := processFiles uid env step.2.2 fs
    (step.1 ++ rest.1, step.2.1 ++ rest.2.1, rest.2.2)

/-- Lines 120-199 (`process_directory`): the function authenticates on its own
at line 124 with no surrounding `try`, so a fault there propagates and aborts
the run; likewise the `os.listdir` call at line 127 is unguarded. On success
the loop runs over the listing with the freshly obtained user id. -/
def process_directory (listing : Except Unit (List FsFile)) (env : RemoteEnv)
    (remote : RemoteState) :
    Except Unit (List RemoteCall × List LogEvent × RemoteState) :=
  match env.authResult with
  | .error e => .error e
  | .ok uid =>
    match listing with
    | .error e => .error e
    | .ok files => .ok (processFiles uid env remote files)

/-! ## Connection validation and entry point -/

/-- Lines 70-86 (`validate_odoo_connection`): authenticate once; return the
user id when it is truthy, `None` when it is falsy or when any exception is
raised (caught by the `except` clause and converted to `None`). -/
def validate_odoo_connection (authResult : Except Unit Nat) : Option Nat :=
  match authResult with
  | .error _ => none
  | .ok uid => if uid ≠ 0 then some uid else none

/-- Lines 222-236 of `main`, for the import path (no `--blank` flag): validate
the connection with its own authenticate call; when validation yields `None`,
print the failure and return before touching any file (result `ok none`);
otherwise run `process_directory`, whose own faults still propagate. -/
def main_import (listing : Except Unit (List FsFile))
    (validateAuth : Except Unit Nat) (env : RemoteEnv) (remote : RemoteState) :
    Except Unit (Option (List RemoteCall × List LogEvent × RemoteState)) :=
  match validate_odoo_connection validateAuth with
  | none => .ok none
  | some _ => (process_directory listing env remote).map some

/-- Statement id a file contributes to the import workflow: the extracted id
when the name ends in `".xml"` and the file is not blank — exactly the
conditions under which the loop of `process_directory` reaches the existence
check. Derived notion used by the deduplication lemmas. -/
def fileStmtId (f : FsFile) : Option String :=
  if pyEndsWith f.name ".xml" && !(is_blank_camt053 f).1 then
    extract_stmt_id f
  else none

/-! ## Concrete instances used by witnesses -/

/-- Remote environment whose every call succeeds and whose own
authentication returns the given result. -/
def noFaultEnv (auth : Except Unit Nat) : RemoteEnv :=
  ⟨auth, fun _ => false, fun _ => false, fun _ => false⟩

/-- Remote state with no statements and no import records. -/
def emptyRemote : RemoteState := ⟨[], [], 1⟩

/-- A one-transaction statement file with id `STMT-001`. -/
def sampleFileB : FsFile :=
  ⟨"camt.053_B.xml", .wellFormed ⟨1, some (some "STMT-001")⟩, [60, 65]⟩

/-- A two-transaction statement file with id `STMT-002`. -/
def sampleFileC : FsFile :=
  ⟨"camt.053_C.xml", .wellFormed ⟨2, some (some "STMT-002")⟩, [61]⟩

/-- A file whose content is not well-formed XML. -/
def sampleMalformed : FsFile := ⟨"bad.xml", .malformed, [1]⟩

/-- Remote state already holding a bank statement named `STMT-001`. -/
def remoteWithB : RemoteState := ⟨["STMT-001"], [], 1⟩

/-! ## Helper lemmas -/

/-- Fault-free environments satisfy `RemoteEnv.faultFree`. -/
theorem noFaultEnv_faultFree (auth : Except Unit Nat) :
    (noFaultEnv auth).faultFree :=
  ⟨fun _ => rfl, fun _ => rfl, fun _ => rfl⟩

/-- Stripping a whitespace-only string yields the empty string. -/
theorem pyStrip_all_whitespace (s : String)
    (h : ∀ c ∈ s.data, isPyWhitespace c = true) : pyStrip s = "" := by
  unfold pyStrip
  rw [List.dropWhile_eq_nil_iff.mpr h]
  rfl

/-- Splitting the file loop of the import workflow around a listing split. -/
theorem processFiles_append (uid : Nat) (env : RemoteEnv) (r : RemoteState)
    (xs ys : List FsFile) :
    processFiles uid env r (xs ++ ys) =
      ((processFiles uid env r xs).1 ++
         (processFiles uid env (processFiles uid env r xs).2.2 ys).1,
       (processFiles uid env r xs).2.1 ++
         (processFiles uid env (processFiles uid env r xs).2.2 ys).2.1,
       (processFiles uid env (processFiles uid env r xs).2.2 ys).2.2) := by
  induction xs generalizing r with
  | nil => simp [processFiles]
  | cons f fs ih => simp [processFiles, ih]

/-- Every remote call of the existence-check-and-upload step is issued with
the user id passed in. -/
theorem checkAndUpload_uid_eq (uid : Nat) (env : RemoteEnv) (r : RemoteState)
    (f : FsFile) (s : String) :
    ∀ c ∈ (checkAndUpload uid env r f s).1, c.uid = uid := by
  unfold checkAndUpload
  split_ifs <;> intro c hc <;> fin_cases hc <;> rfl

/-- Every remote call issued for one file carries the user id passed in. -/
theorem processFile_uid_eq (uid : Nat) (env : RemoteEnv) (r : RemoteState)
    (f : FsFile) : ∀ c ∈ (processFile uid env r f).1, c.uid = uid := by
  intro c hc
  rcases hext : extract_stmt_id f with _ | s0
  · cases hxml : pyEndsWith f.name ".xml" <;>
      cases hb : (is_blank_camt053 f).1 <;>
      simp_all [processFile, hxml, hb, hext]
  · cases hxml : pyEndsWith f.name ".xml" <;>
      cases hb : (is_blank_camt053 f).1 <;>
      simp_all [processFile, hxml, hb, hext]
    exact checkAndUpload_uid_eq uid env r f s0 c (by simpa using hc)

/-- Every remote call of a whole run carries the user id passed in. -/
theorem processFiles_uid_eq (uid : Nat) (env : RemoteEnv) :
    ∀ (files : List FsFile) (r : RemoteState),
      ∀ c ∈ (processFiles uid env r files).1, c.uid = uid := by
  intro files
  induction files with
  | nil => intro r c hc; simp [processFiles] at hc
  | cons g gs ih =>
    intro r c hc
    simp only [processFiles] at hc
    rcases List.mem_append.mp hc with hc | hc
    · exact processFile_uid_eq uid env r g c hc
    · exact ih _ c hc

/-- The existence-check-and-upload step never removes remote statements. -/
theorem checkAndUpload_statements_mono (uid : Nat) (env : RemoteEnv)
    (r : RemoteState) (f : FsFile) (s0 s : String) (hs : s ∈ r.statements) :
    s ∈ (checkAndUpload uid env r f s0).2.2.statements := by
  unfold checkAndUpload
  split_ifs <;> simp_all

/-- Processing one file never removes remote statements. -/
theorem processFile_statements_mono (uid : Nat) (env : RemoteEnv)
    (r : RemoteState) (f : FsFile) (s : String) (hs : s ∈ r.statements) :
    s ∈ (processFile uid env r f).2.2.statements := by
  rcases hext : extract_stmt_id f with _ | s0
  · cases hxml : pyEndsWith f.name ".xml" <;>
      cases hb : (is_blank_camt053 f).1 <;>
      simp [processFile, hxml, hb, hext, hs]
  · cases hxml : pyEndsWith f.name ".xml" <;>
      cases hb : (is_blank_camt053 f).1 <;>
      simp [processFile, hxml, hb, hext, hs,
        checkAndUpload_statements_mono uid env r f s0 s hs]

/-- A whole run never removes remote statements. -/
theorem processFiles_statements_mono (uid : Nat) (env : RemoteEnv) :
    ∀ (files : List FsFile) (r : RemoteState) (s : String),
      s ∈ r.statements →
      s ∈ (processFiles uid env r files).2.2.statements := by
  intro files
  induction files with
  | nil => intro r s hs; simpa [processFiles] using hs
  | cons f fs ih =>
    intro r s hs
    simp only [processFiles]
    exact ih _ s (processFile_statements_mono uid env r f s hs)

/-- With no faults, after the existence-check-and-upload step for id `s` the
remote system has a statement named `s` (it either already existed or was
just imported). -/
theorem checkAndUpload_registers (uid : Nat) (env : RemoteEnv)
    (r : RemoteState) (f : FsFile) (s : String)
    (hsf : env.searchFault f.name = false)
    (hcf : env.createFault f.name = false)
    (htf : env.triggerFault f.name = false) :
    s ∈ (checkAndUpload uid env r f s).2.2.statements := by
  unfold checkAndUpload
  simp only [hsf, hcf, htf]
  by_cases hmem : s ∈ r.statements
  · simp [hmem]
  · simp [hmem]

/-- With no faults, after processing a file that reaches the existence check
its statement id is present remotely. -/
theorem processFile_registers (uid : Nat) (env : RemoteEnv) (r : RemoteState)
    (f : FsFile) (s : String) (hff : env.faultFree)
    (hid : fileStmtId f = some s) :
    s ∈ (processFile uid env r f).2.2.statements := by
  obtain ⟨h1, h2, h3⟩ := hff
  unfold fileStmtId at hid
  split at hid
  case isFalse => cases hid
  case isTrue hcond =>
    obtain ⟨hxml, hb⟩ := Bool.and_eq_true _ _ |>.mp hcond
    rw [Bool.not_eq_true'] at hb
    have : s ∈ (checkAndUpload uid env r f s).2.2.statements :=
      checkAndUpload_registers uid env r f s (h1 f.name) (h2 f.name)
        (h3 f.name)
    simpa [processFile, hxml, hb, hid] using this

/-- With no faults, a run registers the statement id of every file that
reaches the existence check. -/
theorem processFiles_registers (uid : Nat) (env : RemoteEnv)
    (hff : env.faultFree) :
    ∀ (files : List FsFile) (r : RemoteState), ∀ f ∈ files,
      ∀ s, fileStmtId f = some s →
      s ∈ (processFiles uid env r files).2.2.statements := by
  intro files
  induction files with
  | nil => intro r f hf; cases hf
  | cons g gs ih =>
    intro r f hf s hid
    simp only [processFiles]
    rcases List.mem_cons.mp hf with rfl | hf
    · exact processFiles_statements_mono uid env gs _ s
        (processFile_registers uid env r f s hff hid)
    · exact ih _ f hf s hid

/-- With no faults, a file whose statement id (if any) already exists
remotely leaves the remote state unchanged and issues neither a create nor an
import-trigger call. -/
theorem processFile_skips (uid : Nat) (env : RemoteEnv) (r : RemoteState)
    (f : FsFile) (hff : env.faultFree)
    (h : ∀ s, fileStmtId f = some s → s ∈ r.statements) :
    (processFile uid env r f).2.2 = r ∧
    (∀ c ∈ (processFile uid env r f).1,
      c.isCreate = false ∧ c.isTrigger = false) := by
  obtain ⟨h1, h2, h3⟩ := hff
  rcases hext : extract_stmt_id f with _ | s0
  · cases hxml : pyEndsWith f.name ".xml" <;>
      cases hb : (is_blank_camt053 f).1 <;>
      simp [processFile, hxml, hb, hext]
  · cases hxml : pyEndsWith f.name ".xml" <;>
      cases hb : (is_blank_camt053 f).1
    · simp [processFile, hxml, hb, hext]
    · simp [processFile, hxml, hb, hext]
    · have hs0 : s0 ∈ r.statements :=
        h s0 (by simp [fileStmtId, hxml, hb, hext])
      constructor
      · simp [processFile, hxml, hb, hext, checkAndUpload, h1 f.name, hs0]
      · intro c hc
        simp [processFile, hxml, hb, hext, checkAndUpload, h1 f.name,
          hs0] at hc
        subst hc
        exact ⟨rfl, rfl⟩
    · simp [processFile, hxml, hb, hext]

/-- With no faults, a run over files whose statement ids all already exist
remotely leaves the remote state unchanged and issues neither create nor
import-trigger calls. -/
theorem processFiles_skips (uid : Nat) (env : RemoteEnv)
    (hff : env.faultFree) :
    ∀ (files : List FsFile) (r : RemoteState),
      (∀ f ∈ files, ∀ s, fileStmtId f = some s → s ∈ r.statements) →
      (processFiles uid env r files).2.2 = r ∧
      ∀ c ∈ (processFiles uid env r files).1,
        c.isCreate = false ∧ c.isTrigger = false := by
  intro files
  induction files with
  | nil => intro r h; exact ⟨rfl, by simp [processFiles]⟩
  | cons g gs ih =>
    intro r h
    obtain ⟨hstep, hcalls⟩ :=
      processFile_skips uid env r g hff (h g (by simp))
    simp only [processFiles, hstep]
    obtain ⟨hrest, hcallsrest⟩ :=
      ih r (fun f hf s hs => h f (by simp [hf]) s hs)
    refine ⟨hrest, fun c hc => ?_⟩
    rcases List.mem_append.mp hc with hc | hc
    · exact hcalls c hc
    · exact hcallsrest c hc

/-- Every branch of the existence-check-and-upload step logs an event about
the file. -/
theorem checkAndUpload_logs (uid : Nat) (env : RemoteEnv) (r : RemoteState)
    (f : FsFile) (s : String) :
    ∃ e ∈ (checkAndUpload uid env r f s).2.1, e.fileName = f.name := by
  unfold checkAndUpload
  split_ifs <;> simp [LogEvent.fileName]

/-- Processing a file always logs at least one event about that file,
whatever its content and whatever the remote faults. -/
theorem processFile_logs (uid : Nat) (env : RemoteEnv) (r : RemoteState)
    (f : FsFile) :
    ∃ e ∈ (processFile uid env r f).2.1, e.fileName = f.name := by
  rcases hext : extract_stmt_id f with _ | s0
  · cases hxml : pyEndsWith f.name ".xml"
    · exact ⟨.skippedNonXml f.name, by simp [processFile, hxml], rfl⟩
    · cases hb : (is_blank_camt053 f).1
      · exact ⟨.errorExtractId f.name,
          by simp [processFile, hxml, hb, hext], rfl⟩
      · exact ⟨.skippedBlank f.name, by simp [processFile, hxml, hb], rfl⟩
  · cases hxml : pyEndsWith f.name ".xml"
    · exact ⟨.skippedNonXml f.name, by simp [processFile, hxml], rfl⟩
    · cases hb : (is_blank_camt053 f).1
      · obtain ⟨e, he, hname⟩ := checkAndUpload_logs uid env r f s0
        refine ⟨e, ?_, hname⟩
        simp only [processFile, hxml, hb, hext]
        simp only [Bool.not_true, Bool.false_eq_true, if_false]
        exact List.mem_append.mpr (Or.inr he)
      · exact ⟨.skippedBlank f.name, by simp [processFile, hxml, hb], rfl⟩

/-- A run logs at least one event about every file of the listing. -/
theorem processFiles_logs (uid : Nat) (env : RemoteEnv) :
    ∀ (files : List FsFile) (r : RemoteState), ∀ f ∈ files,
      ∃ e ∈ (processFiles uid env r files).2.1, e.fileName = f.name := by
  intro files
  induction files with
  | nil => intro r f hf; cases hf
  | cons g gs ih =>
    intro r f hf
    rcases List.mem_cons.mp hf with rfl | hf
    · obtain ⟨e, he, hname⟩ := processFile_logs uid env r f
      exact ⟨e, by simp [processFiles]; exact Or.inl he, hname⟩
    · obtain ⟨e, he, hname⟩ := ih _ f hf
      exact ⟨e, by simp [processFiles]; exact Or.inr he, hname⟩

/-- A malformed `.xml` file yields a parse-error log from the blank check, an
extraction-error log, no remote call, and no remote state change. -/
theorem processFile_malformed (uid : Nat) (env : RemoteEnv) (r : RemoteState)
    (f : FsFile) (hxml : pyEndsWith f.name ".xml" = true)
    (hmal : f.xml = .malformed) :
    processFile uid env r f =
      ([], [.errorParsingXml f.name, .errorExtractId f.name], r) := by
  have hb : is_blank_camt053 f = (false, [.errorParsingXml f.name]) := by
    simp [is_blank_camt053, hmal]
  have hext : extract_stmt_id f = none := by simp [extract_stmt_id, hmal]
  simp [processFile, hxml, hb, hext]

/-! ## Claim C1 -/

/-- C1: for every well-formed CAMT.053 input, the blankness check returns
true iff the document contains zero transaction-entry (`Ntry`) nodes under
the namespace `urn:iso:std:iso:20022:tech:xsd:camt.053.001.04`; with one or
more such nodes it returns false. -/
theorem c1_blank_iff_no_entries (name : String) (bytes : List Nat)
    (doc : Camt053Doc) :
    (is_blank_camt053 ⟨name, .wellFormed doc, bytes⟩).1 = true ↔
      doc.ntryCount = 0 := by
  simp [is_blank_camt053]

/-! ## Claim C4 -/

/-- C4 counterexample: on a malformed XML input the blankness check does not
report a parse error as its outcome; it returns the boolean `false` (logging
a parse error on the side), contradicting the claim that the outcome is
neither true nor false. -/
theorem c4_counterexample :
    (is_blank_camt053 ⟨"bad.xml", .malformed, []⟩).1 = false ∧
    is_blank_camt053 ⟨"bad.xml", .malformed, []⟩ =
      (false, [.errorParsingXml "bad.xml"]) :=
  ⟨rfl, rfl⟩

/-- C4 amended: for every malformed XML input, the blankness check logs a
parse error and returns false (the file is treated as non-blank) rather than
propagating a parse-error outcome. -/
theorem c4_malformed_logs_and_returns_false (f : FsFile)
    (h : f.xml = .malformed) :
    is_blank_camt053 f = (false, [.errorParsingXml f.name]) := by
  simp [is_blank_camt053, h]

/-- C4 witness: the amended theorem applied to a concrete malformed file. -/
theorem c4_malformed_witness :
    is_blank_camt053 ⟨"broken.xml", .malformed, [60]⟩ =
      (false, [.errorParsingXml "broken.xml"]) :=
  c4_malformed_logs_and_returns_false ⟨"broken.xml", .malformed, [60]⟩ rfl

/-! ## Claim C5 -/

/-- C5 counterexample: with a statement-identifier node whose text is the
single space (whitespace-only, hence non-empty), extraction does not return
absent as the claim states: the truthiness test at line 148 passes and the
strip at line 151 yields the empty string, so the result is `some ""`. -/
theorem c5_counterexample :
    extract_stmt_id ⟨"ws.xml", .wellFormed ⟨1, some (some " ")⟩, []⟩ =
      some "" ∧
    extract_stmt_id ⟨"ws.xml", .wellFormed ⟨1, some (some " ")⟩, []⟩ ≠
      none :=
  ⟨rfl, fun h => Option.noConfusion h⟩

/-- C5 amended: extraction returns the stripped text of the identifier node
when the node is present with non-empty text; it returns absent when the node
is missing, its text is missing, or its text is the empty string; for
whitespace-only (non-empty) text it returns the empty string, not absent. -/
theorem c5_extract_characterization (n : Nat) (name : String)
    (bytes : List Nat) (t : String) (ht : t ≠ "") :
    extract_stmt_id ⟨name, .wellFormed ⟨n, none⟩, bytes⟩ = none ∧
    extract_stmt_id ⟨name, .wellFormed ⟨n, some none⟩, bytes⟩ = none ∧
    extract_stmt_id ⟨name, .wellFormed ⟨n, some (some "")⟩, bytes⟩ = none ∧
    extract_stmt_id ⟨name, .wellFormed ⟨n, some (some t)⟩, bytes⟩ =
      some (pyStrip t) ∧
    ((∀ c ∈ t.data, isPyWhitespace c = true) →
      extract_stmt_id ⟨name, .wellFormed ⟨n, some (some t)⟩, bytes⟩ =
        some "") := by
  refine ⟨rfl, rfl, rfl, by simp [extract_stmt_id, ht], fun hws => ?_⟩
  simp [extract_stmt_id, ht, pyStrip_all_whitespace t hws]

/-- C5 witness: the amended characterization applied to concrete inputs. -/
theorem c5_extract_witness :
    extract_stmt_id
        ⟨"a.xml", .wellFormed ⟨0, some (some " STMT-001 ")⟩, []⟩ =
      some (pyStrip " STMT-001 ") :=
  (c5_extract_characterization 0 "a.xml" [] " STMT-001 "
    (by decide)).2.2.2.1

/-! ## Claim C6 -/

/-- C6 counterexample: the blank-detection workflow does not process a file
named `CAMT.053_2025.XML`: the suffix test `file_name.endswith(".xml")` is
case-sensitive, so the file fails the filter and is never inspected. -/
theorem c6_counterexample :
    (blanksLoop [⟨"CAMT.053_2025.XML", .wellFormed ⟨0, none⟩, []⟩]).2.1 =
      [] ∧
    blankFilter "CAMT.053_2025.XML" = false :=
  ⟨rfl, rfl⟩

/-- C6 amended: the blank-detection filename filter ignores `statement.xml`
(no `camt.053` prefix) and also ignores `CAMT.053_2025.XML`: the `camt.053`
prefix is matched case-insensitively but the `.xml` suffix is matched
case-sensitively, so only a lowercase suffix such as in `CAMT.053_2025.xml`
is processed; every processed name ends in the exact lowercase `.xml`. -/
theorem c6_filename_filter :
    (blanksLoop [⟨"statement.xml", .wellFormed ⟨0, none⟩, []⟩,
                 ⟨"CAMT.053_2025.XML", .wellFormed ⟨0, none⟩, []⟩,
                 ⟨"CAMT.053_2025.xml", .wellFormed ⟨0, none⟩, []⟩]).2.1 =
      ["CAMT.053_2025.xml"] ∧
    blankFilter "statement.xml" = false ∧
    blankFilter "CAMT.053_2025.XML" = false ∧
    blankFilter "CAMT.053_2025.xml" = true ∧
    (∀ name, blankFilter name = true → pyEndsWith name ".xml" = true) := by
  refine ⟨rfl, rfl, rfl, rfl, fun name h => ?_⟩
  exact (Bool.and_eq_true _ _ |>.mp h).2

/-- C6 witness: the general suffix consequence of the amended filter theorem,
applied to the concrete processed file name. -/
theorem c6_filename_witness :
    pyEndsWith "CAMT.053_2025.xml" ".xml" = true :=
  c6_filename_filter.2.2.2.2 "CAMT.053_2025.xml" c6_filename_filter.2.2.2.1

/-! ## Claim C7 -/

/-- C7: connection validation runs once before batch processing: a fault of
the authenticate call is caught and converted to `None`, a falsy user id
yields `None`, and a truthy user id is returned; the entry point aborts with
no file touched and no remote call issued when validation yields `None`, and
proceeds to `process_directory` otherwise. -/
theorem c7_connection_validation (u : Nat) (hu : u ≠ 0)
    (listing : Except Unit (List FsFile)) (env : RemoteEnv)
    (r : RemoteState) :
    validate_odoo_connection (.error ()) = none ∧
    validate_odoo_connection (.ok 0) = none ∧
    validate_odoo_connection (.ok u) = some u ∧
    main_import listing (.error ()) env r = .ok none ∧
    main_import listing (.ok 0) env r = .ok none ∧
    main_import listing (.ok u) env r =
      (process_directory listing env r).map some := by
  refine ⟨rfl, rfl, ?_, rfl, rfl, ?_⟩
  · simp [validate_odoo_connection, hu]
  · simp [main_import, validate_odoo_connection, hu]

/-- C7 witness: connection validation theorem at concrete inputs. -/
theorem c7_connection_witness :
    validate_odoo_connection (.ok 7) = some 7 ∧
    main_import (.ok []) (.error ()) (noFaultEnv (.ok 7)) emptyRemote =
      .ok none :=
  ⟨(c7_connection_validation 7 (by decide) (.ok []) (noFaultEnv (.ok 7))
      emptyRemote).2.2.1,
   (c7_connection_validation 7 (by decide) (.ok []) (noFaultEnv (.ok 7))
      emptyRemote).2.2.2.1⟩

/-! ## Claim C2 -/

/-- C2: for every remote state in which a bank statement whose name equals
the extracted statement identifier of a file already exists, the import
workflow skips that file, issuing the search call only — zero create and
zero import-trigger calls; consequently with fault-free remote calls (where
every successful import makes its statement searchable), running the
workflow a second time over the same directory and the resulting remote
state issues zero create and zero import-trigger calls and leaves the remote
state unchanged. -/
theorem c2_dedup_idempotent (uid : Nat) (env : RemoteEnv) (r : RemoteState)
    (files : List FsFile) (hff : env.faultFree) :
    (∀ (f : FsFile) (s : String), pyEndsWith f.name ".xml" = true →
        (is_blank_camt053 f).1 = false → extract_stmt_id f = some s →
        s ∈ r.statements →
        processFile uid env r f =
          ([.searchStatement uid s],
           (is_blank_camt053 f).2 ++ [.skippedExisting f.name s], r)) ∧
    (processFiles uid env (processFiles uid env r files).2.2 files).2.2 =
      (processFiles uid env r files).2.2 ∧
    ∀ c ∈ (processFiles uid env (processFiles uid env r files).2.2 files).1,
      c.isCreate = false ∧ c.isTrigger = false := by
  obtain ⟨h1, h2, h3⟩ := hff
  refine ⟨?_, ?_⟩
  · intro f s hxml hb hext hmem
    simp [processFile, checkAndUpload, hxml, hb, hext, h1 f.name, hmem]
  · exact processFiles_skips uid env ⟨h1, h2, h3⟩ files _
      (fun f hf s hs =>
        processFiles_registers uid env ⟨h1, h2, h3⟩ files r f hf s hs)

/-- C2 witness: a file with id `STMT-001` is skipped against a remote state
already holding that statement, and a second run over a directory holding
only that file issues no create or trigger call. -/
theorem c2_witness :
    processFile 1 (noFaultEnv (.ok 1)) remoteWithB sampleFileB =
      ([.searchStatement 1 "STMT-001"],
       [.skippedExisting "camt.053_B.xml" "STMT-001"], remoteWithB) ∧
    ∀ c ∈ (processFiles 1 (noFaultEnv (.ok 1))
        (processFiles 1 (noFaultEnv (.ok 1)) emptyRemote [sampleFileB]).2.2
        [sampleFileB]).1, c.isCreate = false ∧ c.isTrigger = false := by
  constructor
  · exact (c2_dedup_idempotent 1 (noFaultEnv (.ok 1)) remoteWithB
      [sampleFileB] (noFaultEnv_faultFree _)).1 sampleFileB "STMT-001"
      (by decide) (by decide) (by decide) (by decide)
  · exact (c2_dedup_idempotent 1 (noFaultEnv (.ok 1)) emptyRemote
      [sampleFileB] (noFaultEnv_faultFree _)).2.2

/-! ## Claim C3 -/

/-- C3: in the import workflow a malformed file k anywhere in the listing is
caught and treated as a skip: the batch still logs an outcome for every
single file of the listing (all are attempted, under any remote-fault
configuration for the other files), file k itself is error-logged, and the
remote calls and final remote state are exactly those of the batch without
file k. -/
theorem c3_batch_resilience (uid : Nat) (env : RemoteEnv) (r : RemoteState)
    (xs ys : List FsFile) (k : FsFile)
    (hxml : pyEndsWith k.name ".xml" = true) (hmal : k.xml = .malformed) :
    (∀ f ∈ xs ++ k :: ys,
        ∃ e ∈ (processFiles uid env r (xs ++ k :: ys)).2.1,
          e.fileName = f.name) ∧
    LogEvent.errorExtractId k.name ∈
      (processFiles uid env r (xs ++ k :: ys)).2.1 ∧
    (processFiles uid env r (xs ++ k :: ys)).1 =
      (processFiles uid env r (xs ++ ys)).1 ∧
    (processFiles uid env r (xs ++ k :: ys)).2.2 =
      (processFiles uid env r (xs ++ ys)).2.2 := by
  have hk : ∀ r' : RemoteState, processFile uid env r' k =
      ([], [.errorParsingXml k.name, .errorExtractId k.name], r') :=
    fun r' => processFile_malformed uid env r' k hxml hmal
  refine ⟨fun f hf => processFiles_logs uid env (xs ++ k :: ys) r f hf,
    ?_, ?_, ?_⟩ <;>
    simp [processFiles_append, processFiles, hk]

/-- C3 witness: a malformed file between two good files is error-logged and
leaves the remote calls of the batch unchanged. -/
theorem c3_witness :
    LogEvent.errorExtractId "bad.xml" ∈
      (processFiles 1 (noFaultEnv (.ok 1)) emptyRemote
        [sampleFileB, sampleMalformed, sampleFileC]).2.1 ∧
    (processFiles 1 (noFaultEnv (.ok 1)) emptyRemote
        [sampleFileB, sampleMalformed, sampleFileC]).1 =
      (processFiles 1 (noFaultEnv (.ok 1)) emptyRemote
        [sampleFileB, sampleFileC]).1 := by
  have h := c3_batch_resilience 1 (noFaultEnv (.ok 1)) emptyRemote
    [sampleFileB] [sampleFileC] sampleMalformed (by decide) rfl
  exact ⟨h.2.1, h.2.2.1⟩

/-! ## Claim C8 -/

/-- C8: a file that qualifies for upload triggers exactly two remote upload
calls in order after the existence search: a create on the import-staging
model carrying the filename and the base64-encoded bytes, then the import
trigger invoked with the created record id wrapped in a one-element list;
there is no atomicity between the two — when the trigger faults after the
create succeeded, the staged import record remains, no statement is
registered, and the outcome is only an error log (file-scoped, the workflow
returns normally). -/
theorem c8_upload_sequence (uid : Nat) (env : RemoteEnv) (r : RemoteState)
    (f : FsFile) (s : String)
    (hxml : pyEndsWith f.name ".xml" = true)
    (hb : (is_blank_camt053 f).1 = false)
    (hext : extract_stmt_id f = some s)
    (hnew : s ∉ r.statements)
    (hsf : env.searchFault f.name = false)
    (hcf : env.createFault f.name = false) :
    (env.triggerFault f.name = false →
      processFile uid env r f =
        ([.searchStatement uid s,
          .createImport uid f.name (b64encode f.bytes),
          .importFileButton uid [r.nextId]],
         (is_blank_camt053 f).2 ++ [.uploadedOk f.name],
         ⟨r.statements ++ [s],
          r.imports ++ [(r.nextId, f.name, b64encode f.bytes)],
          r.nextId + 1⟩)) ∧
    (env.triggerFault f.name = true →
      processFile uid env r f =
        ([.searchStatement uid s,
          .createImport uid f.name (b64encode f.bytes),
          .importFileButton uid [r.nextId]],
         (is_blank_camt053 f).2 ++ [.errorUploading f.name],
         ⟨r.statements,
          r.imports ++ [(r.nextId, f.name, b64encode f.bytes)],
          r.nextId + 1⟩)) := by
  constructor <;> intro htf <;>
    simp [processFile, checkAndUpload, hxml, hb, hext, hnew, hsf, hcf, htf]

/-- C8 witness: the upload sequence for a concrete new statement file. -/
theorem c8_witness :
    processFile 1 (noFaultEnv (.ok 1)) emptyRemote sampleFileC =
      ([.searchStatement 1 "STMT-002",
        .createImport 1 "camt.053_C.xml" (b64encode [61]),
        .importFileButton 1 [1]],
       [.uploadedOk "camt.053_C.xml"],
       ⟨["STMT-002"], [(1, "camt.053_C.xml", b64encode [61])], 2⟩) :=
  (c8_upload_sequence 1 (noFaultEnv (.ok 1)) emptyRemote sampleFileC
    "STMT-002" (by decide) (by decide) (by decide) (by decide) rfl rfl).1 rfl

/-! ## Claim C9 -/

/-- C9: `process_directory` performs a second authenticate call of its own,
not wrapped in any handler: when that call faults the whole run aborts (also
through `main`, even though pre-flight validation succeeded with some user id
`u1`); when it returns `uid2`, every subsequent remote call of the run is
issued with `uid2`, not with the validated `u1`. -/
theorem c9_second_authenticate (listing : Except Unit (List FsFile))
    (env : RemoteEnv) (r : RemoteState) (u1 uid2 : Nat) (hu1 : u1 ≠ 0)
    (files : List FsFile) :
    (env.authResult = .error () →
      process_directory listing env r = .error () ∧
      main_import listing (.ok u1) env r = .error ()) ∧
    (env.authResult = .ok uid2 → listing = .ok files →
      process_directory listing env r =
        .ok (processFiles uid2 env r files) ∧
      main_import listing (.ok u1) env r =
        .ok (some (processFiles uid2 env r files)) ∧
      ∀ c ∈ (processFiles uid2 env r files).1, c.uid = uid2) := by
  constructor
  · intro ha
    have hpd : process_directory listing env r = .error () := by
      simp [process_directory, ha]
    exact ⟨hpd,
      by simp [main_import, validate_odoo_connection, hu1, hpd, Except.map]⟩
  · intro ha hl
    have hpd : process_directory listing env r =
        .ok (processFiles uid2 env r files) := by
      simp [process_directory, ha, hl]
    exact ⟨hpd,
      by simp [main_import, validate_odoo_connection, hu1, hpd, Except.map],
      processFiles_uid_eq uid2 env files r⟩

/-- C9 witness: concrete run where pre-flight validation returned user id 5
but the second authenticate call governs — a fault in it aborts the run, and
on success every call carries its id 9. -/
theorem c9_witness :
    process_directory (.ok [sampleFileC]) (noFaultEnv (.error ()))
      emptyRemote = .error () ∧
    process_directory (.ok [sampleFileC]) (noFaultEnv (.ok 9)) emptyRemote =
      .ok (processFiles 9 (noFaultEnv (.ok 9)) emptyRemote [sampleFileC]) ∧
    ∀ c ∈ (processFiles 9 (noFaultEnv (.ok 9)) emptyRemote [sampleFileC]).1,
      c.uid = 9 := by
  refine ⟨((c9_second_authenticate (.ok [sampleFileC])
      (noFaultEnv (.error ())) emptyRemote 5 9 (by decide)
      [sampleFileC]).1 rfl).1, ?_, ?_⟩
  · exact ((c9_second_authenticate (.ok [sampleFileC]) (noFaultEnv (.ok 9))
      emptyRemote 5 9 (by decide) [sampleFileC]).2 rfl rfl).1
  · exact ((c9_second_authenticate (.ok [sampleFileC]) (noFaultEnv (.ok 9))
      emptyRemote 5 9 (by decide) [sampleFileC]).2 rfl rfl).2.2

/-! ## Claim C10 -/

/-- C10: the directory listing call is unguarded in both workflows: a
listing failure propagates as the error outcome of the whole run — no file
is processed and nothing is produced — rather than being caught and logged
at any boundary. -/
theorem c10_unguarded_listing (env : RemoteEnv) (r : RemoteState) (uid : Nat)
    (hauth : env.authResult = .ok uid) :
    process_directory (.error ()) env r = .error () ∧
    process_directory_for_blanks (.error ()) = .error () :=
  ⟨by simp [process_directory, hauth], rfl⟩

/-- C10 witness: the unguarded-listing theorem at a concrete environment. -/
theorem c10_witness :
    process_directory (.error ()) (noFaultEnv (.ok 3)) emptyRemote =
      .error () ∧
    process_directory_for_blanks (.error ()) = .error () :=
  c10_unguarded_listing (noFaultEnv (.ok 3)) emptyRemote 3 rfl

end PfStatements
